import Mathlib

/-!
Verification of the thingy BLE client (src/thingy.c): a shallow embedding of
its notification decoding callback, subscription command, discovery-ready
handler and session construction, with theorems checking the design spec's
claims against the embedded code.

Conventions of the embedding:
* Byte buffers are `List Nat` with every element `< 256`; the C `length`
  parameter always equals the list length (it is supplied by the ATT layer).
* A C read `value[i]` is modelled as `List.get? value i`; an access at or
  beyond the end of the buffer yields `none`, flagging the out-of-bounds
  (undefined-behaviour) read instead of inventing a value.
* C `int` arithmetic that can wrap is made explicit with `asInt32`
  (two's-complement interpretation of the low 32 bits, the conventional
  behaviour of the compiled code).
* External library capabilities (the GATT client) are parameters: the
  registration call `bt_gatt_client_register_notify` is a function
  `cap : Nat → Nat` from the requested handle to the returned identifier
  (`0` = failure), and each embedded routine additionally returns the list
  of handles it actually passed to that capability.
-/

namespace Thingy

/-- Sensor selector constants from thingy.c lines 25-28. -/
def THINGY_SENSOR_TEMPERATURE : Nat := 0

def THINGY_SENSOR_PRESSURE : Nat := 1

def THINGY_SENSOR_HUMIDITY : Nat := 2

def THINGY_SENSOR_GAS : Nat := 3

/-- Two's-complement reading of the low 32 bits of a natural number: the value
a C `int` holds after the pressure bytes are shifted and or-ed together. -/
def asInt32 (n : Nat) : Int :=
  let m := n % 4294967296
  if m < 2147483648 then (m : Int) else (m : Int) - 4294967296

/-- What one invocation of `notify_cb` (thingy.c lines 73-106) emits on the
console, abstracted from the printf formatting. -/
inductive NotifyOutput where
  | temp (intPart fracPart : Nat)
  | pressure (hpa : Int) (fracPart : Nat)
  | humidity (percent : Nat)
  | gas (eco2 tvoc : Nat)
  | diagEmpty (handle : Nat)
  | diagBytes (handle : Nat) (len : Nat) (bytes : List Nat)
deriving DecidableEq, Repr

/-- Embedding of `notify_cb` (thingy.c lines 73-106).  Each branch reads the
same bytes at the same offsets as the C code; `none` means the C code read a
byte at or past the end of the buffer (undefined behaviour).  The C code
performs no length check before the fixed-offset reads in the four sensor
branches; only the fallback diagnostic branch consults `length`. -/
def notify_cb (value_handle : Nat) (value : List Nat) : Option NotifyOutput :=
  if value_handle = 0x001f then do
    let b0 ← value.get? 0
    let b1 ← value.get? 1
    pure (NotifyOutput.temp b0 b1)
  else if value_handle = 0x0022 then do
    let b0 ← value.get? 0
    let b1 ← value.get? 1
    let b2 ← value.get? 2
    let b3 ← value.get? 3
    let b4 ← value.get? 4
    pure (NotifyOutput.pressure (asInt32 (b3 <<< 24 ||| b2 <<< 16 ||| b1 <<< 8 ||| b0)) b4)
  else if value_handle = 0x0025 then do
    let b0 ← value.get? 0
    pure (NotifyOutput.humidity b0)
  else if value_handle = 0x0028 then do
    let b0 ← value.get? 0
    let b1 ← value.get? 1
    let b2 ← value.get? 2
    let b3 ← value.get? 3
    pure (NotifyOutput.gas (b1 <<< 8 ||| b0) (b3 <<< 8 ||| b2))
  else if value.length = 0 then
    pure (NotifyOutput.diagEmpty value_handle)
  else
    pure (NotifyOutput.diagBytes value_handle value.length value)

/-- The spec's per-channel minimum payload lengths (§4.3 table), indexed by
the four characteristic handles. -/
def minLen (handle : Nat) : Nat :=
  if handle = 0x001f then 2
  else if handle = 0x0022 then 5
  else if handle = 0x0025 then 1
  else if handle = 0x0028 then 4
  else 0

/-- The delimiter set `" \t"` that `cmd_register_notify` hands to `strsep`. -/
def isSepChar (c : Char) : Bool :=
  c == ' ' || c == '\t'

/-- `strsep`-style splitting on space and tab: every delimiter ends a field,
so consecutive delimiters produce empty fields, exactly as in the C loop. -/
def splitFields : List Char → List Char → List (List Char)
  | [], acc => [acc.reverse]
  | c :: cs, acc =>
    if isSepChar c then acc.reverse :: splitFields cs []
    else splitFields cs (c :: acc)

/-- Embedding of `parse_args` (thingy.c lines 54-70) combined with the
caller's `argc` check: `strsep` on space and tab produces fields, empty
fields are skipped, and the C function returns false as soon as more than
`expected_argc` fields are seen.  `some args` is the token list on success;
`none` is the early false return. -/
def parse_args (str : String) (expected_argc : Nat) : Option (List (List Char)) :=
  let args := (splitFields str.data []).filter (fun t => ¬ t.isEmpty)
  if args.length ≤ expected_argc then some args else none

/-- The characters `isspace` accepts in the C locale, which `strtol` skips. -/
def isSpaceChar (c : Char) : Bool :=
  c == ' ' || c == '\t' || c == '\n' || c == '\r' || c == '\x0b' || c == '\x0c'

/-- Leading-whitespace skip performed by `strtol`. -/
def dropSpaces : List Char → List Char
  | [] => []
  | c :: cs => if isSpaceChar c then dropSpaces cs else c :: cs

/-- Value of one digit character in bases up to 16, as `strtol` reads it. -/
def digitVal (c : Char) : Option Nat :=
  if 48 ≤ c.toNat ∧ c.toNat ≤ 57 then some (c.toNat - 48)
  else if 97 ≤ c.toNat ∧ c.toNat ≤ 102 then some (c.toNat - 87)
  else if 65 ≤ c.toNat ∧ c.toNat ≤ 70 then some (c.toNat - 55)
  else none

/-- Accumulate digit characters in the given base; `none` when a character is
not a digit of the base (meaning `strtol` would stop there, so the whole
string was not consumed). -/
def digitsVal (base : Nat) : List Char → Nat → Option Nat
  | [], acc => some acc
  | c :: cs, acc =>
    match digitVal c with
    | some d => if d < base then digitsVal base cs (acc * base + d) else none
    | none => none

/-- Magnitude part of base-0 `strtol`: a `0x`/`0X` prefix selects base 16, a
leading `0` selects base 8, anything else base 10.  `none` whenever `strtol`
would stop before the end of the string (including `0x` with no hex digit,
where C consumes only the `0`). -/
def strtolNum : List Char → Option Nat
  | [] => none
  | '0' :: 'x' :: cs => if cs.isEmpty then none else digitsVal 16 cs 0
  | '0' :: 'X' :: cs => if cs.isEmpty then none else digitsVal 16 cs 0
  | '0' :: cs => digitsVal 8 cs 0
  | cs => digitsVal 10 cs 0

/-- `strtol(s, &endptr, 0)` under the caller's `*endptr == '\0'` test
(thingy.c line 136): `some v` exactly when the whole string is a valid base-0
number (then `v` is its value), `none` when `endptr` would stop short.  The
empty string gives `some 0` because there `endptr` equals the terminator.
Overflow clamping to `LONG_MAX` is not modelled; all handles of interest are
small. -/
def strtolFull (s : List Char) : Option Int :=
  if s.isEmpty then some 0
  else
    match dropSpaces s with
    | '-' :: cs => (strtolNum cs).map (fun n => -(n : Int))
    | '+' :: cs => (strtolNum cs).map (fun n => ((n : Int)))
    | cs => (strtolNum cs).map (fun n => ((n : Int)))

/-- Observable outcome of one `cmd_register_notify` call (thingy.c lines
117-148), one constructor per console message / exit path. -/
inductive RegOutcome where
  | notReady
  | parseError
  | invalidHandle
  | registrationFailed
  | registered (handle : Nat)
deriving DecidableEq, Repr

/-- Embedding of `cmd_register_notify` (thingy.c lines 117-148).  `isReady`
is `bt_gatt_client_is_ready`, `cap` is `bt_gatt_client_register_notify`
returning the registration id (`0` = failure).  The second component lists
the handles actually passed to `cap`, so `[]` means the GATT capability was
never contacted.  The `uint16_t` assignment truncates the `strtol` result
modulo 2^16. -/
def cmd_register_notify (isReady : Bool) (cap : Nat → Nat) (cmd_str : String) :
    RegOutcome × List Nat :=
  if !isReady then (RegOutcome.notReady, [])
  else
    match parse_args cmd_str 1 with
    | some [arg0] =>
      match strtolFull arg0 with
      | none => (RegOutcome.invalidHandle, [])
      | some v =>
        let value_handle := (v % 65536).toNat
        if value_handle = 0 then (RegOutcome.invalidHandle, [])
        else
          ((if cap value_handle = 0 then RegOutcome.registrationFailed
            else RegOutcome.registered value_handle), [value_handle])
    | _ => (RegOutcome.parseError, [])

/-- Observable outcome of one `ready_cb` call (thingy.c lines 292-320). -/
inductive ReadyOutcome where
  | discoveryFailed (att_ecode : Nat)
  | subscribed (result : RegOutcome × List Nat)
deriving DecidableEq, Repr

/-- Embedding of `ready_cb` (thingy.c lines 292-320): on failed discovery it
only reports the error code; on success it resolves the configured sensor to
one of the four fixed handle strings and calls `cmd_register_notify` once,
defaulting to the temperature handle for any unknown selector value. -/
def ready_cb (success : Bool) (att_ecode : Nat) (thingy_sensor : Nat)
    (isReady : Bool) (cap : Nat → Nat) : ReadyOutcome :=
  if !success then ReadyOutcome.discoveryFailed att_ecode
  else if thingy_sensor = THINGY_SENSOR_TEMPERATURE then
    ReadyOutcome.subscribed (cmd_register_notify isReady cap "0x001f")
  else if thingy_sensor = THINGY_SENSOR_PRESSURE then
    ReadyOutcome.subscribed (cmd_register_notify isReady cap "0x0022")
  else if thingy_sensor = THINGY_SENSOR_HUMIDITY then
    ReadyOutcome.subscribed (cmd_register_notify isReady cap "0x0025")
  else if thingy_sensor = THINGY_SENSOR_GAS then
    ReadyOutcome.subscribed (cmd_register_notify isReady cap "0x0028")
  else
    ReadyOutcome.subscribed (cmd_register_notify isReady cap "0x001f")

/-- The subscription requests a `ready_cb` outcome issued to the GATT
capability. -/
def readyRequests : ReadyOutcome → List Nat
  | ReadyOutcome.discoveryFailed _ => []
  | ReadyOutcome.subscribed r => r.snd

/-- Success/failure of each fallible step of `client_create` (thingy.c lines
336-404), in source order: the `new0` allocation, `bt_att_new`,
`bt_att_set_close_on_unref`, `bt_att_register_disconnect`, `gatt_db_new` and
`bt_gatt_client_new`. -/
structure SetupWorld where
  new0_ok : Bool
  att_new_ok : Bool
  close_on_unref_ok : Bool
  register_disconnect_ok : Bool
  db_new_ok : Bool
  gatt_new_ok : Bool
deriving DecidableEq, Fintype

/-- Live resource counts: client allocations, ATT transport references,
attribute-database references and GATT client references still held. -/
structure Resources where
  cliAlloc : Nat
  attRef : Nat
  dbRef : Nat
  gattRef : Nat
deriving DecidableEq, Repr

/-- `bt_att_unref`: drops one ATT reference; a no-op on a NULL / already
fully released transport, as in the library. -/
def bt_att_unref (r : Resources) : Resources :=
  if r.attRef = 0 then r else { r with attRef := r.attRef - 1 }

/-- `gatt_db_unref`: drops one database reference; a no-op on NULL. -/
def gatt_db_unref (r : Resources) : Resources :=
  if r.dbRef = 0 then r else { r with dbRef := r.dbRef - 1 }

/-- `free(cli)`. -/
def freeCli (r : Resources) : Resources :=
  { r with cliAlloc := r.cliAlloc - 1 }

/-- Embedding of `client_create` (thingy.c lines 336-404).  The Bool result
is whether a session pointer (rather than NULL) is returned; the `Resources`
component tracks what is still held at return.  Mirrors the C cleanup on
each failure path, including the no-op `bt_att_unref(NULL)` on the
`bt_att_new` failure path, and the final `gatt_db_unref` handing the
database over to the GATT client (which took its own reference in
`bt_gatt_client_new`). -/
def client_create (w : SetupWorld) : Bool × Resources :=
  let r0 := Resources.mk 0 0 0 0
  if !w.new0_ok then (false, r0)
  else
    let r1 := { r0 with cliAlloc := 1 }
    if !w.att_new_ok then (false, freeCli (bt_att_unref r1))
    else
      let r2 := { r1 with attRef := 1 }
      if !w.close_on_unref_ok then (false, freeCli (bt_att_unref r2))
      else if !w.register_disconnect_ok then (false, freeCli (bt_att_unref r2))
      else if !w.db_new_ok then (false, freeCli (bt_att_unref r2))
      else
        let r3 := { r2 with dbRef := 1 }
        if !w.gatt_new_ok then (false, freeCli (bt_att_unref (gatt_db_unref r3)))
        else
          let r4 := { r3 with gattRef := 1, dbRef := r3.dbRef + 1 }
          (true, gatt_db_unref r4)

end Thingy

namespace Thingy

/-- C1: the spec claims a notification buffer shorter than the channel's
minimum length (2/5/1/4 bytes) is rejected with a Malformed error and that
no byte at or beyond the end of the buffer is read.  The code has no length
check at all in the four sensor branches of `notify_cb`: at boundary length
min_len - 1 it reads past the end of the buffer (modelled as `none`), and no
Malformed result exists anywhere in its output type.  This theorem evaluates
the embedded code at length min_len - 1 for all four channels and exhibits
the out-of-bounds read. -/
theorem notify_short_buffer_oob :
    notify_cb 0x001f [22] = none ∧
    notify_cb 0x0022 [1, 2, 3, 4] = none ∧
    notify_cb 0x0025 [] = none ∧
    notify_cb 0x0028 [1, 2, 3] = none := by
  decide

/-- C2: on minimum-length buffers each channel decodes to exactly the
documented value: Temperature [22, 5] gives 22.5, Pressure
[0x10, 0x27, 0, 0, 3] gives 10000.3, Humidity [45] gives 45, Gas
[0xE8, 0x03, 0x2C, 0x01] gives eCO2 = 1000 and TVOC = 300. -/
theorem decode_table_values :
    notify_cb 0x001f [22, 5] = some (NotifyOutput.temp 22 5) ∧
    notify_cb 0x0022 [0x10, 0x27, 0x00, 0x00, 3] = some (NotifyOutput.pressure 10000 3) ∧
    notify_cb 0x0025 [45] = some (NotifyOutput.humidity 45) ∧
    notify_cb 0x0028 [0xE8, 0x03, 0x2C, 0x01] = some (NotifyOutput.gas 1000 300) := by
  decide

/-- C3: the spec claims the Pressure integer part is the unsigned 32-bit
little-endian value of bytes 0-3, so a payload with the top bit of byte 3
set should decode to a large positive value.  The code assembles the bytes
into a signed C `int` and prints it with %d, so the payload
[0x00, 0x00, 0x00, 0x80, 0x00] (unsigned value 2147483648) is emitted as
the negative number -2147483648. -/
theorem pressure_high_bit_negative :
    notify_cb 0x0022 [0x00, 0x00, 0x00, 0x80, 0x00] =
      some (NotifyOutput.pressure (-2147483648) 0) ∧
    (-2147483648 : Int) < 0 := by
  decide

/-- C4: on discovery failure `ready_cb` reports the error code and issues no
subscription request; on success with the GATT client ready it issues
exactly one registration request, to 0x001F for Temperature, 0x0022 for
Pressure, 0x0025 for Humidity and 0x0028 for Gas.  (`cmd_register_notify`
has no other caller in the default flow of the source: `ready_cb` is its
sole call site.) -/
theorem ready_cb_subscribes_fixed_handles (e s : Nat) (r : Bool) (cap : Nat → Nat) :
    ready_cb false e s r cap = ReadyOutcome.discoveryFailed e ∧
    readyRequests (ready_cb false e s r cap) = [] ∧
    readyRequests (ready_cb true e THINGY_SENSOR_TEMPERATURE true cap) = [0x001f] ∧
    readyRequests (ready_cb true e THINGY_SENSOR_PRESSURE true cap) = [0x0022] ∧
    readyRequests (ready_cb true e THINGY_SENSOR_HUMIDITY true cap) = [0x0025] ∧
    readyRequests (ready_cb true e THINGY_SENSOR_GAS true cap) = [0x0028] :=
  ⟨rfl, rfl, rfl, rfl, rfl, rfl⟩

/-- C5: whenever any setup step of `client_create` fails, the function
returns NULL and every resource acquired by the earlier steps has been
released: no partially constructed session escapes. -/
theorem client_create_no_partial_session (w : SetupWorld) :
    (client_create w).fst = false → (client_create w).snd = Resources.mk 0 0 0 0 := by
  revert w
  decide

/-- Witness for C5 at a concrete world: `bt_gatt_client_new` fails after
every earlier step succeeded, and all counters are back to zero. -/
theorem client_create_no_partial_session_witness :
    (client_create (SetupWorld.mk true true true true true false)).snd =
      Resources.mk 0 0 0 0 :=
  client_create_no_partial_session (SetupWorld.mk true true true true true false) (by decide)

/-- C6: when the command string parses to a single token whose `strtol`
value truncates to handle 0, `cmd_register_notify` fails with the
invalid-handle message and never contacts the GATT capability (the request
list is empty); when the handle is non-zero but the capability returns
id 0, it fails with the registration-failed message.  In both cases the
outcome is not `registered`, so no handle-to-decoder binding is recorded,
and the function merely returns, leaving the session running. -/
theorem register_notify_failure_paths (cap : Nat → Nat) (s : String) (a : List Char) (v : Int) :
    (parse_args s 1 = some [a] → strtolFull a = some v → (v % 65536).toNat = 0 →
      cmd_register_notify true cap s = (RegOutcome.invalidHandle, [])) ∧
    (parse_args s 1 = some [a] → strtolFull a = some v → ¬ (v % 65536).toNat = 0 →
      cap ((v % 65536).toNat) = 0 →
      cmd_register_notify true cap s = (RegOutcome.registrationFailed, [(v % 65536).toNat])) := by
  constructor
  · intro hp hv h0
    simp [cmd_register_notify, hp, hv, h0]
  · intro hp hv h0 hcap
    simp [cmd_register_notify, hp, hv, h0, hcap]

/-- Witness for C6: the command string is the literal token 0 for the
invalid-handle case, and the temperature handle with a capability that
returns id 0 for the registration-failure case. -/
theorem register_notify_failure_paths_witness :
    cmd_register_notify true (fun _ => 1) "0" = (RegOutcome.invalidHandle, []) ∧
    cmd_register_notify true (fun _ => 0) "0x001f" = (RegOutcome.registrationFailed, [0x001f]) :=
  ⟨(register_notify_failure_paths (fun _ => 1) "0" "0".data 0).1
      (by decide) (by decide) (by decide),
   (register_notify_failure_paths (fun _ => 0) "0x001f" "0x001f".data 31).2
      (by decide) (by decide) (by decide) (by decide)⟩

/-- C7: a notification on any handle other than the four bound sensor
handles takes the fallback branch of `notify_cb`: it emits the raw-bytes
diagnostic carrying the handle, the byte count and the bytes themselves
(or the empty-payload diagnostic when the length is 0), reads nothing out
of bounds, and touches no session or subscription state (the embedded
callback is pure and its only effect is this output). -/
theorem unbound_handle_diagnostic (h : Nat) (value : List Nat)
    (h1 : ¬ h = 0x001f) (h2 : ¬ h = 0x0022) (h3 : ¬ h = 0x0025) (h4 : ¬ h = 0x0028) :
    notify_cb h value =
      some (if value.length = 0 then NotifyOutput.diagEmpty h
            else NotifyOutput.diagBytes h value.length value) := by
  rcases eq_or_ne value [] with he | he <;> simp [notify_cb, h1, h2, h3, h4, he]

/-- Witness for C7 at handle 0x0030 with a 2-byte payload. -/
theorem unbound_handle_diagnostic_witness :
    notify_cb 0x0030 [171, 205] = some (NotifyOutput.diagBytes 0x0030 2 [171, 205]) :=
  unbound_handle_diagnostic 0x0030 [171, 205] (by decide) (by decide) (by decide) (by decide)

/-- C8: for each sensor channel, a buffer at least as long as the channel's
minimum length decodes exactly as its minimum-length prefix does: the four
sensor branches of `notify_cb` read only fixed offsets below the minimum
length, so excess bytes never influence the decoded value. -/
theorem decode_ignores_excess_bytes (value : List Nat) :
    (2 ≤ value.length → notify_cb 0x001f value = notify_cb 0x001f (value.take 2)) ∧
    (5 ≤ value.length → notify_cb 0x0022 value = notify_cb 0x0022 (value.take 5)) ∧
    (1 ≤ value.length → notify_cb 0x0025 value = notify_cb 0x0025 (value.take 1)) ∧
    (4 ≤ value.length → notify_cb 0x0028 value = notify_cb 0x0028 (value.take 4)) := by
  refine ⟨fun _ => ?_, fun _ => ?_, fun _ => ?_, fun _ => ?_⟩ <;>
    simp [notify_cb, List.getElem?_take_of_lt]

/-- Witness for C8: a 4-byte temperature payload decodes exactly as its
2-byte prefix. -/
theorem decode_ignores_excess_bytes_witness :
    notify_cb 0x001f [22, 5, 9, 9] = notify_cb 0x001f ([22, 5, 9, 9].take 2) :=
  (decode_ignores_excess_bytes [22, 5, 9, 9]).1 (by decide)

/-- C9: when discovery succeeds but the configured sensor selector holds
none of the four defined values, the final else of `ready_cb` subscribes to
the temperature handle string, so exactly one registration request for
0x001F is issued rather than none at all. -/
theorem unknown_sensor_defaults_to_temperature (e s : Nat) (cap : Nat → Nat)
    (h0 : ¬ s = 0) (h1 : ¬ s = 1) (h2 : ¬ s = 2) (h3 : ¬ s = 3) :
    ready_cb true e s true cap =
      ReadyOutcome.subscribed (cmd_register_notify true cap "0x001f") ∧
    readyRequests (ready_cb true e s true cap) = [0x001f] := by
  have hr : ready_cb true e s true cap =
      ReadyOutcome.subscribed (cmd_register_notify true cap "0x001f") := by
    simp [ready_cb, THINGY_SENSOR_TEMPERATURE, THINGY_SENSOR_PRESSURE,
      THINGY_SENSOR_HUMIDITY, THINGY_SENSOR_GAS, h0, h1, h2, h3]
  exact ⟨hr, by rw [hr]; rfl⟩

/-- Witness for C9 at selector value 4. -/
theorem unknown_sensor_defaults_to_temperature_witness :
    readyRequests (ready_cb true 0 4 true (fun _ => 5)) = [0x001f] :=
  (unknown_sensor_defaults_to_temperature 0 4 (fun _ => 5)
    (by decide) (by decide) (by decide) (by decide)).2

/-- C10: invoked while the GATT client is not ready, `cmd_register_notify`
prints the not-initialized diagnostic and returns immediately: the command
string is never parsed or validated, no registration request is issued to
the capability, and no state changes. -/
theorem register_notify_requires_ready (cap : Nat → Nat) (s : String) :
    cmd_register_notify false cap s = (RegOutcome.notReady, []) :=
  rfl

end Thingy


